import Mathlib

/-!
Shallow embedding of the cart-to-order fulfillment core and the product
search merge of an organic-products e-commerce backend (Express +
Mongoose controllers), together with proofs of the specified properties.

Conventions of the embedding:
* Mongo documents are Lean structures; collections are lists; `findOne` /
  `findById` is `List.find?` on the key, and saving a mutated document is
  `updateFirst` on the collection.
* JavaScript truthiness of `x || d` on strings/numbers is made explicit
  (`""` and `0` are falsy) by `jsOrS` / `jsOrNat` / `jsOrInt`.
* Fallible controller actions return `Except ApiError _`; actions that
  mutate state before failing (the order reservation loop) return the
  post-call database alongside the `Except`.
* `Date.now()` is passed in as an explicit `now : Nat` parameter; the HTTP
  response of the external catalog is passed in as an explicit
  `Option (List ExtRaw)` (`none` = timeout / network failure, absorbed by
  the `catch` in the source).
-/

set_option maxHeartbeats 1000000

namespace OrganicShop

/-- JS `a || b` where `a` is an optional string field: `undefined` and `""`
are falsy. -/
def jsOrS (a : Option String) (b : String) : String :=
  match a with
  | some s => if s = "" then b else s
  | none => b

/-- JS `a || b` where `a` is an optional numeric field: `undefined` and `0`
are falsy. -/
def jsOrNat (a : Option Nat) (b : Nat) : Nat :=
  match a with
  | some n => if n = 0 then b else n
  | none => b

/-- JS `a || b` for an optional (integer-valued) number: `0` is falsy. -/
def jsOrInt (a : Option Int) (b : Int) : Int :=
  match a with
  | some n => if n = 0 then b else n
  | none => b

/-- An ASCII-whitespace character (the common cases of the JS `trim`). -/
def isSpaceChar (c : Char) : Bool :=
  c == ' ' || c == '\t' || c == '\n' || c == '\r'

/-- Model of the JS `String.prototype.trim`: strip whitespace from both
ends (kept executable down to the character list). -/
def jsTrim (s : String) : String :=
  ⟨((s.toList.dropWhile isSpaceChar).reverse.dropWhile isSpaceChar).reverse⟩

/-- Model of the JS `String.prototype.toLowerCase`, character by
character (kept executable down to the character list). -/
def jsToLower (s : String) : String :=
  ⟨s.toList.map Char.toLower⟩

/-- Update the first element satisfying `p`; models mutating the document
returned by a Mongoose `findOne`/`findIndex` and then saving it. -/
def updateFirst (p : α → Bool) (f : α → α) : List α → List α
  | [] => []
  | a :: as => if p a then f a :: as else a :: updateFirst p f as

/-- Error taxonomy of the controllers (HTTP 400 validation, 404, and the
400 insufficient-stock failure, which carries a distinct message). -/
inductive ApiError where
  | invalidArgument
  | notFound
  | insufficientStock
  deriving Repr, DecidableEq

/-- A persisted product document (`src/models/Product.js`), restricted to
the fields the fulfillment core and the search read. -/
structure Product where
  id : Nat
  name : String
  description : String := ""
  price : Int := 0
  image : String := ""
  stock : Nat := 0
  tags : List String := []
  benefits : String := ""
  rating : Int := 0
  createdAt : Nat := 0
  category : String := ""
  deriving Repr, DecidableEq

/-- A cart line (`src/models/Cart.js`, `items` subdocument). -/
structure CartItem where
  productId : Nat
  quantity : Nat
  deriving Repr, DecidableEq

/-- A cart document (`src/models/Cart.js`): keyed by a user id or a guest
session id, distinguished only by `isGuest`. -/
structure Cart where
  userId : String
  items : List CartItem
  isGuest : Bool := false
  deriving Repr, DecidableEq

/-- Canonical shipping address shape of the Order model. -/
structure Address where
  street : String
  city : String
  state : String
  zipCode : String
  country : String
  deriving Repr, DecidableEq

/-- A frozen order line (`products` subdocument of the Order model). -/
structure OrderLine where
  productId : Nat
  name : String
  quantity : Nat
  price : Int
  image : String
  deriving Repr, DecidableEq

/-- A persisted order document (`src/models/Order.js`). -/
structure Order where
  id : Nat
  userId : String
  products : List OrderLine
  totalAmount : Int
  address : Address
  paymentMethod : String
  status : String
  isPaid : Bool := false
  paidAt : Option Nat := none
  isDelivered : Bool := false
  deliveredAt : Option Nat := none
  deriving Repr, DecidableEq

/-- The backing store: the three collections the fulfillment core touches. -/
structure DB where
  products : List Product
  carts : List Cart
  orders : List Order
  deriving Repr, DecidableEq

/-- Model of `Product.findById` over the embedded collection. -/
def findProduct (ps : List Product) (pid : Nat) : Option Product :=
  ps.find? (fun p => p.id == pid)

/-- Model of `Cart.findOne({userId})` over the embedded collection (guest carts are
keyed by the session id in the same field). -/
def findCart (cs : List Cart) (uid : String) : Option Cart :=
  cs.find? (fun c => c.userId == uid)

/-- The items of the (first) cart stored for `uid`, `[]` when absent. -/
def userCartItems (db : DB) (uid : String) : List CartItem :=
  match findCart db.carts uid with
  | some c => c.items
  | none => []

/-- The quantity of the line for `pid` in the cart stored for `uid`. -/
def lineQty (db : DB) (uid : String) (pid : Nat) : Option Nat :=
  ((userCartItems db uid).find? (fun it => it.productId == pid)).map
    (fun it => it.quantity)

/-- Replace the items of a cart document. -/
def Cart.setItems (c : Cart) (its : List CartItem) : Cart :=
  { c with items := its }

/-- Replace the carts collection of the store. -/
def DB.setCarts (db : DB) (cs : List Cart) : DB :=
  { db with carts := cs }

/-- Overwrite the quantity of a cart line. -/
def CartItem.setQty (it : CartItem) (q : Nat) : CartItem :=
  { it with quantity := q }

/-- Mutate-and-save the items of the (first) cart document keyed by `uid`. -/
def updCartItems (db : DB) (uid : String)
    (f : List CartItem → List CartItem) : DB :=
  db.setCarts (updateFirst (fun c => c.userId == uid)
    (fun c => c.setItems (f c.items)) db.carts)

/-- Overwrite the quantity of the first line for `pid`. -/
def setLineQty (pid : Nat) (q : Nat) (its : List CartItem) : List CartItem :=
  updateFirst (fun it => it.productId == pid) (fun it => it.setQty q) its

/-- Model of `addToCart` (authenticated variant, cart controller): resolves the
product, checks stock against the added quantity, finds or creates the
user's cart, and collapses a duplicate line by summing quantities after a
second stock check against the summed quantity. -/
def addToCart (db : DB) (uid : String) (pid : Nat) (quantity : Option Nat) :
    Except ApiError DB :=
  let qty := jsOrNat quantity 1
  match findProduct db.products pid with
  | none => .error .notFound
  | some p =>
    if p.stock < qty then .error .insufficientStock
    else
      match findCart db.carts uid with
      | none =>
        .ok (db.setCarts (db.carts ++ [{ userId := uid, items := [⟨pid, qty⟩] }]))
      | some c =>
        match c.items.find? (fun it => it.productId == pid) with
        | some it =>
          let newQ := it.quantity + qty
          if p.stock < newQ then .error .insufficientStock
          else .ok (updCartItems db uid (setLineQty pid newQ))
        | none =>
          .ok (updCartItems db uid (fun its => its ++ [⟨pid, qty⟩]))

/-- Model of `addToGuestCart` (guest variant, cart controller): resolves the product
but performs no stock check at all; finds or creates the guest cart keyed
by the session id and collapses a duplicate line by summing quantities. -/
def addToGuestCart (db : DB) (sessionId : String) (pid : Nat)
    (quantity : Option Nat) : Except ApiError DB :=
  match findProduct db.products pid with
  | none => .error .notFound
  | some _ =>
    match findCart db.carts sessionId with
    | none =>
      .ok (db.setCarts (db.carts ++
        [{ userId := sessionId, items := [⟨pid, jsOrNat quantity 1⟩], isGuest := true }]))
    | some c =>
      match c.items.find? (fun it => it.productId == pid) with
      | some it =>
        .ok (updCartItems db sessionId
          (setLineQty pid (it.quantity + jsOrNat quantity 1)))
      | none =>
        .ok (updCartItems db sessionId (fun its => its ++ [⟨pid, jsOrNat quantity 1⟩]))

/-- Model of `updateCartItem` (cart controller): an absolute quantity set.  The
quantity is a raw JS number, so `0` is caught by the required-fields check
and negatives by the explicit `< 1` check, both HTTP 400. -/
def updateCartItem (db : DB) (uid : String) (pid : Nat) (quantity : Int) :
    Except ApiError DB :=
  if quantity = 0 then .error .invalidArgument
  else if quantity < 1 then .error .invalidArgument
  else
    match findProduct db.products pid with
    | none => .error .notFound
    | some p =>
      if (p.stock : Int) < quantity then .error .insufficientStock
      else
        match findCart db.carts uid with
        | none => .error .notFound
        | some c =>
          match c.items.find? (fun it => it.productId == pid) with
          | none => .error .notFound
          | some _ =>
            .ok (updCartItems db uid (setLineQty pid quantity.toNat))

/-- Model of `removeFromCart` (cart controller): 404 when the user has no cart
document; otherwise filters the line out (a no-op when absent). -/
def removeFromCart (db : DB) (uid : String) (pid : Nat) : Except ApiError DB :=
  match findCart db.carts uid with
  | none => .error .notFound
  | some _ =>
    .ok (updCartItems db uid (fun its => its.filter (fun it => !(it.productId == pid))))

/-- Model of `clearCart` (cart controller): success both when the cart document is
absent ("Cart is already empty") and when present (items emptied). -/
def clearCart (db : DB) (uid : String) : Except ApiError DB :=
  match findCart db.carts uid with
  | none => .ok db
  | some _ => .ok (updCartItems db uid (fun _ => []))

/-- Model of `removeFromGuestCart` (cart controller): requires a session id, 404
when the guest cart document is absent, otherwise filters the line out. -/
def removeFromGuestCart (db : DB) (sessionId : Option String) (pid : Nat) :
    Except ApiError DB :=
  match sessionId with
  | none => .error .invalidArgument
  | some sid =>
    match findCart db.carts sid with
    | none => .error .notFound
    | some _ =>
      .ok (updCartItems db sid (fun its => its.filter (fun it => !(it.productId == pid))))

/-- Model of `clearGuestCart` (cart controller): success when no session id is
given, when the cart document is absent, and when present (emptied). -/
def clearGuestCart (db : DB) (sessionId : Option String) : Except ApiError DB :=
  match sessionId with
  | none => .ok db
  | some sid =>
    match findCart db.carts sid with
    | none => .ok db
    | some _ => .ok (updCartItems db sid (fun _ => []))

/-- One line of the incoming create-order request body: the client sends a
product reference (`item.product || item.productId`, collapsed here into
one id), a quantity, and optional client-declared display data used for
products that do not resolve locally. -/
structure OrderItemReq where
  product : Nat
  quantity : Nat
  name : Option String := none
  price : Option Int := none
  image : Option String := none
  deriving Repr, DecidableEq

/-- The raw address object of the request, carrying the accepted aliases
(`address|street`, `pincode|zipCode`) as optional fields. -/
structure AddressReq where
  address : Option String := none
  street : Option String := none
  city : Option String := none
  state : Option String := none
  pincode : Option String := none
  zipCode : Option String := none
  country : Option String := none
  deriving Repr, DecidableEq

/-- The create-order request body (`items|products`,
`shippingAddress|address` alias pairs kept as distinct fields). -/
structure CreateOrderReq where
  items : Option (List OrderItemReq) := none
  products : Option (List OrderItemReq) := none
  totalAmount : Int := 0
  shippingAddress : Option AddressReq := none
  address : Option AddressReq := none
  paymentMethod : Option String := none
  deriving Repr, DecidableEq

/-- JS `a || b` on two optional object/array fields: any present object or
array (even an empty one) is truthy. -/
def jsOrO (a b : Option α) : Option α :=
  match a with
  | some x => some x
  | none => b

/-- Address normalization of `createOrder`: each canonical field is the
first truthy alias, defaulting to `""` (`country` defaults to "India"). -/
def normalizeAddress (a : AddressReq) : Address :=
  { street := jsOrS a.address (jsOrS a.street "")
    city := jsOrS a.city ""
    state := jsOrS a.state ""
    zipCode := jsOrS a.pincode (jsOrS a.zipCode "")
    country := jsOrS a.country "India" }

/-- Decrement the stock of the (first) stored product with id `pid`
(`product.stock -= quantity; await product.save()`). -/
def decStock (ps : List Product) (pid : Nat) (q : Nat) : List Product :=
  updateFirst (fun p => p.id == pid) (fun p => { p with stock := p.stock - q }) ps

/-- The reservation loop of `createOrder`: processes the request lines in
order against the product collection.  An unresolvable line passes through
with the client-declared data; a resolvable line is checked against
current stock and, if sufficient, the stock decrement is saved immediately
(before the remaining lines are examined).  On an insufficient line the
loop stops, returning the partially decremented collection. -/
def reserveLoop : List OrderItemReq → List Product → List OrderLine →
    List Product × Except ApiError (List OrderLine)
  | [], ps, acc => (ps, .ok acc.reverse)
  | it :: rest, ps, acc =>
    match findProduct ps it.product with
    | none =>
      reserveLoop rest ps
        ({ productId := it.product, name := jsOrS it.name "Product",
           quantity := it.quantity, price := jsOrInt it.price 0,
           image := jsOrS it.image "" } :: acc)
    | some p =>
      if p.stock < it.quantity then (ps, .error .insufficientStock)
      else
        reserveLoop rest (decStock ps it.product it.quantity)
          ({ productId := p.id, name := p.name, quantity := it.quantity,
             price := jsOrInt it.price p.price, image := p.image } :: acc)

/-- The request lines after the `items || products` normalization. -/
def orderItemsOf (req : CreateOrderReq) : Option (List OrderItemReq) :=
  jsOrO req.items req.products

/-- Whether the normalized shipping address passes the required-fields
validation of `createOrder`. -/
def addressComplete (na : Address) : Bool :=
  !(na.street == "") && !(na.city == "") && !(na.state == "") && !(na.zipCode == "")

/-- Model of `createOrder` (order controller only; the route composes the
`validateOrder` middleware in front of it, see `createOrderEndpoint`):
validates the payload, runs the reservation loop, and on success persists
the pending order (payment method defaulting to "card") and empties the
user's cart.  The returned database reflects any stock decrements the
loop saved before a failure. -/
def createOrder (db : DB) (uid : String) (req : CreateOrderReq) :
    DB × Except ApiError Order :=
  match orderItemsOf req with
  | none => (db, .error .invalidArgument)
  | some its =>
    if its.isEmpty then (db, .error .invalidArgument)
    else if req.totalAmount ≤ 0 then (db, .error .invalidArgument)
    else
      match jsOrO req.shippingAddress req.address with
      | none => (db, .error .invalidArgument)
      | some a =>
        let na := normalizeAddress a
        if !(addressComplete na) then (db, .error .invalidArgument)
        else
          match reserveLoop its db.products [] with
          | (ps2, .error e) => ({ db with products := ps2 }, .error e)
          | (ps2, .ok lines) =>
            let order : Order :=
              { id := db.orders.length, userId := uid, products := lines,
                totalAmount := req.totalAmount, address := na,
                paymentMethod := jsOrS req.paymentMethod "card",
                status := "pending" }
            let emptied := updateFirst (fun c => c.userId == uid)
              (fun c => c.setItems []) db.carts
            let db2 : DB :=
              { products := ps2, orders := db.orders ++ [order], carts := emptied }
            (db2, .ok order)

/-- Model of `validateOrder` (src/utils/validation.js): the error list the
order-body validator collects.  It prefers `products` over `items` and
`address` over `shippingAddress`, and resolves the `street`/`zipCode`
field aliases in the opposite order to the controller's normalization
(either alias order is empty exactly when both alias fields are falsy). -/
def validateOrder (data : CreateOrderReq) : List String :=
  (match jsOrO data.products data.items with
   | none => ["Order must contain at least one product"]
   | some l =>
     if l.isEmpty then ["Order must contain at least one product"] else []) ++
  (if data.totalAmount ≤ 0 then ["Valid total amount is required"] else []) ++
  (match jsOrO data.address data.shippingAddress with
   | none => ["Complete shipping address is required"]
   | some a =>
     if jsOrS a.street (jsOrS a.address "") = "" ∨ jsOrS a.city "" = "" ∨
         jsOrS a.state "" = "" ∨ jsOrS a.zipCode (jsOrS a.pincode "") = "" then
       ["Complete shipping address is required with all fields"]
     else []) ++
  (match data.paymentMethod with
   | none => ["Payment method is required"]
   | some pm => if pm = "" then ["Payment method is required"] else [])

/-- Model of POST /api/orders/create as wired in orderRoutes.js: the
`validateRequest(validateOrder)` middleware rejects a body with a
non-empty error list as a 400 validation error before the `createOrder`
controller runs. -/
def createOrderEndpoint (db : DB) (uid : String) (req : CreateOrderReq) :
    DB × Except ApiError Order :=
  if (validateOrder req).isEmpty then createOrder db uid req
  else (db, .error .invalidArgument)

/-- The status strings accepted by `updateOrderStatus`. -/
def validStatuses : List String :=
  ["pending", "shipped", "delivered", "cancelled"]

/-- Model of `Order.findById` over the embedded collection. -/
def findOrder (os : List Order) (oid : Nat) : Option Order :=
  os.find? (fun o => o.id == oid)

/-- The in-place mutation `updateOrderStatus` performs on the found order
document: set the status, and on "delivered" also mark delivery. -/
def applyStatus (s : String) (now : Nat) (o : Order) : Order :=
  if s == "delivered" then
    { o with status := s, isDelivered := true, deliveredAt := some now }
  else { o with status := s }

/-- Model of `updateOrderStatus` (order controller): requires a truthy status in
the four-value enumeration, 404 on a missing order, then saves the
mutation (`applyStatus`). -/
def updateOrderStatus (db : DB) (oid : Nat) (status : Option String)
    (now : Nat) : DB × Except ApiError Order :=
  match status with
  | none => (db, .error .invalidArgument)
  | some s =>
    if s = "" then (db, .error .invalidArgument)
    else if !(validStatuses.contains s) then (db, .error .invalidArgument)
    else
      match findOrder db.orders oid with
      | none => (db, .error .notFound)
      | some o =>
        let o2 := applyStatus s now o
        let os2 := updateFirst (fun o' => o'.id == oid) (fun _ => o2) db.orders
        ({ db with orders := os2 }, .ok o2)

/-- Whether `needle` occurs as a contiguous run inside the list. -/
def hasSubList [BEq α] (needle : List α) : List α → Bool
  | [] => needle.isEmpty
  | a :: as => needle.isPrefixOf (a :: as) || hasSubList needle as

/-- JS `hay.includes(needle)` on strings. -/
def strIncludes (hay needle : String) : Bool :=
  hasSubList needle.toList hay.toList

/-- A case-insensitive regex substring test (`$regex` with option `i`). -/
def substrCI (needle hay : String) : Bool :=
  strIncludes (jsToLower hay) (jsToLower needle)

/-- The `$or` clause of the local search query: case-insensitive substring
match over name / description / tags / benefits (a regex on the `tags`
array field matches when any element matches). -/
def matchesTerm (term : String) (p : Product) : Bool :=
  substrCI term p.name || substrCI term p.description ||
    p.tags.any (fun t => substrCI term t) || substrCI term p.benefits

/-- The optional category filter (`category && category !== 'All'`). -/
def categoryOK (category : Option String) (p : Product) : Bool :=
  match category with
  | none => true
  | some c => if c = "" || c = "All" then true else p.category == c

/-- The ranking `{ rating: -1, createdAt: -1 }`: higher rating first, ties
broken by newer `createdAt` first. -/
def rankLE (a b : Product) : Bool :=
  decide (b.rating < a.rating) ||
    (a.rating == b.rating && decide (b.createdAt ≤ a.createdAt))

/-- Insert into a list sorted by `le` (structural, kernel-reducible). -/
def insertRanked (le : α → α → Bool) (a : α) : List α → List α
  | [] => [a]
  | b :: bs => if le a b then a :: b :: bs else b :: insertRanked le a bs

/-- Insertion sort by `le`; the executable model of the Mongo `sort`. -/
def sortRanked (le : α → α → Bool) : List α → List α
  | [] => []
  | a :: as => insertRanked le a (sortRanked le as)

/-- The local leg of the search: filter, rank, cap at the page limit
(Mongo applies `sort` before `limit`). -/
def localSearch (ps : List Product) (term : String) (category : Option String)
    (pageLimit : Nat) : List Product :=
  (sortRanked rankLE
    (ps.filter (fun p => matchesTerm term p && categoryOK category p))).take
    pageLimit

/-- A raw OpenFoodFacts product payload, with the fields the transform in
the search service reads (all optional in the heterogeneous schema). -/
structure ExtRaw where
  product_name : Option String := none
  code : Option String := none
  generic_name : Option String := none
  brands : Option String := none
  price : Option Int := none
  categories : Option String := none
  pnns_groups_1 : Option String := none
  image_url : Option String := none
  image_front_url : Option String := none
  labels : Option String := none
  url : Option String := none
  deriving Repr, DecidableEq

/-- An external product mapped into the local product shape by the search
service (the fields the merge and the claims read). -/
structure ExtProduct where
  id : String
  name : String
  description : String
  price : Int
  category : String
  image : String
  rating : Int := 0
  numReviews : Nat := 0
  isOrganic : Bool
  inStock : Bool := true
  stock : Nat := 100
  source : String
  deriving Repr, DecidableEq

/-- Model of `mapToCategory` of the search service: keyword buckets over the
lowercased external category text. -/
def mapToCategory (externalCategory : String) : String :=
  if externalCategory = "" then "Farm Products"
  else
    let c := jsToLower externalCategory
    if strIncludes c "dairy" || strIncludes c "milk" || strIncludes c "cheese" then
      "Dairy"
    else if strIncludes c "vegetable" || strIncludes c "carrot" ||
        strIncludes c "potato" then "Vegetables"
    else if strIncludes c "fruit" || strIncludes c "apple" ||
        strIncludes c "banana" then "Fruits"
    else if strIncludes c "medicine" || strIncludes c "supplement" ||
        strIncludes c "vitamin" then "Organic Medicines"
    else "Farm Products"

/-- Model of `checkIfOrganic` of the search service: keyword match over the
lowercased label text. -/
def checkIfOrganic (labels : String) : Bool :=
  if labels = "" then false
  else
    ["organic", "bio", "ecologic", "certified", "natural"].any
      (fun k => strIncludes (jsToLower labels) k)

/-- How many external results the service requests and keeps. -/
def MAX_EXTERNAL_RESULTS : Nat := 10

/-- The per-product transform of `fetchExternalProducts`.  The two
`Math.random()`-derived fallbacks (placeholder id and synthesized price)
are passed in as explicit entropy parameters. -/
def toExtProduct (randPrice : Int) (randId : String) (raw : ExtRaw) :
    ExtProduct :=
  { id := jsOrS raw.code ("external-" ++ randId)
    name := jsOrS raw.product_name ""
    description := jsOrS raw.generic_name
      (jsOrS raw.brands "Product from OpenFoodFacts")
    price := jsOrInt raw.price randPrice
    category := mapToCategory
      (jsOrS raw.categories (jsOrS raw.pnns_groups_1 "Farm Products"))
    image := jsOrS raw.image_url
      (jsOrS raw.image_front_url "/images/no-image.png")
    isOrganic := checkIfOrganic (jsOrS raw.labels (jsOrS raw.product_name ""))
    source := "external" }

/-- Model of `fetchExternalProducts` of the search service.  The HTTP call is
embedded as its response: `none` stands for a timeout / non-2xx /
missing-payload outcome, which the `catch` absorbs into `[]`.  Successful
payloads are filtered to named products, capped, and mapped into the
local shape with `source = "external"`. -/
def fetchExternalProducts (response : Option (List ExtRaw)) (randPrice : Int)
    (randId : String) (searchTerm : String) : List ExtProduct :=
  if (jsTrim searchTerm).length < 2 then []
  else
    match response with
    | none => []
    | some raws =>
      ((raws.filter (fun r => !(jsOrS r.product_name "" == ""))).take
        MAX_EXTERNAL_RESULTS).map (toExtProduct randPrice randId)

/-- One entry of the combined result sequence: either a local product
(spread with `source: 'local'` by `combineResults`) or an external
product carrying its own `source` field. -/
inductive SearchEntry where
  | loc (p : Product)
  | ext (p : ExtProduct)
  deriving Repr, DecidableEq

/-- The `source` tag an entry of the combined sequence carries. -/
def SearchEntry.source : SearchEntry → String
  | .loc _ => "local"
  | .ext p => p.source

/-- The record `combineResults` builds. -/
structure CombinedResults where
  localCount : Nat
  externalCount : Nat
  total : Nat
  combinedData : List SearchEntry
  deriving Repr, DecidableEq

/-- Model of `combineResults` of the search service: per-source counts and the
concatenation locals-then-externals, locals tagged `source = "local"`. -/
def combineResults (localProducts : List Product)
    (externalProducts : List ExtProduct) : CombinedResults :=
  { localCount := localProducts.length
    externalCount := externalProducts.length
    total := localProducts.length + externalProducts.length
    combinedData := localProducts.map .loc ++ externalProducts.map .ext }

/-- The successful response body of the search endpoint. -/
structure SearchOk where
  query : String
  totalResults : Nat
  localCount : Nat
  externalCount : Nat
  data : List SearchEntry
  deriving Repr, DecidableEq

/-- The outcome of a search call, instrumented with whether the local
database and the external catalog were actually queried. -/
structure SearchOutcome where
  result : Except ApiError SearchOk
  localQueried : Bool
  externalQueried : Bool
  deriving Repr

/-- Model of `searchProducts` (product controller).  The `includeExternal` query
parameter is kept as the raw optional string; an absent parameter
defaults to the JS boolean `true`, which fails the strict string
comparison `includeExternal === 'true'` gating the external fetch.  The
page limit is `min(parseInt(limit) || 10, 50)`. -/
def searchProducts (db : DB) (q : Option String) (category : Option String)
    (limit : Option Nat) (includeExternal : Option String)
    (extResponse : Option (List ExtRaw)) (randPrice : Int) (randId : String) :
    SearchOutcome :=
  match q with
  | none => ⟨.error .invalidArgument, false, false⟩
  | some qs =>
    if (jsTrim qs).length < 2 then ⟨.error .invalidArgument, false, false⟩
    else
      let searchTerm := (jsTrim qs)
      let pageLimit := min (jsOrNat limit 10) 50
      let localProducts := localSearch db.products searchTerm category pageLimit
      let gate := includeExternal == some "true"
      let extQ := gate && decide (localProducts.length < pageLimit)
      let externalProducts :=
        if extQ then fetchExternalProducts extResponse randPrice randId searchTerm
        else []
      let c := combineResults localProducts externalProducts
      ⟨.ok { query := searchTerm, totalResults := c.total,
             localCount := c.localCount, externalCount := c.externalCount,
             data := c.combinedData.take pageLimit }, true, extQ⟩

/-- The quantity of the line for `pid` already in the cart of `uid` (0 when
the cart or the line is absent); the spec's "existing-line-quantity". -/
def existingQty (db : DB) (uid : String) (pid : Nat) : Nat :=
  match (userCartItems db uid).find? (fun it => it.productId == pid) with
  | some it => it.quantity
  | none => 0

/-- A small concrete inventory used to instantiate the theorems. -/
def milk : Product :=
  { id := 1, name := "Organic Milk", price := 10, stock := 5 }

/-- A second concrete product. -/
def honey : Product :=
  { id := 2, name := "Honey", price := 20, stock := 3 }

/-- A concrete store: two products, one user cart holding one unit of milk. -/
def sampleDB : DB :=
  { products := [milk, honey],
    carts := [{ userId := "u", items := [⟨1, 1⟩] }],
    orders := [] }

/-- A complete request address (street and zip given through the aliases). -/
def sampleAddr : AddressReq :=
  { address := some "12 Farm Lane", city := some "Pune",
    state := some "MH", pincode := some "411001" }

/-- A create-order request whose second line overshoots the honey stock. -/
def overshootReq : CreateOrderReq :=
  { items := some [{ product := 1, quantity := 1 }, { product := 2, quantity := 10 }],
    totalAmount := 210, shippingAddress := some sampleAddr,
    paymentMethod := some "card" }

/-- A valid one-line create-order request that omits `paymentMethod`. -/
def noPaymentReq : CreateOrderReq :=
  { items := some [{ product := 1, quantity := 2 }],
    totalAmount := 20, shippingAddress := some sampleAddr }

/-- A create-order request with an empty cart snapshot. -/
def emptyItemsReq : CreateOrderReq :=
  { items := some [], totalAmount := 20,
    shippingAddress := some sampleAddr, paymentMethod := some "card" }

/-- A concrete pending order, and a store holding it. -/
def sampleOrder : Order :=
  { id := 0, userId := "u", products := [⟨1, "Organic Milk", 1, 10, ""⟩],
    totalAmount := 10,
    address := ⟨"12 Farm Lane", "Pune", "MH", "411001", "India"⟩,
    paymentMethod := "card", status := "pending" }

/-- The sample store extended with the sample order. -/
def orderDB : DB :=
  { sampleDB with orders := [sampleOrder] }

/-- A one-product external response used to instantiate the search
theorems. -/
def sampleExtResponse : Option (List ExtRaw) :=
  some [{ product_name := some "Ext Milk" }]

/-- Replace the orders collection of the store. -/
def DB.setOrders (db : DB) (os : List Order) : DB :=
  { db with orders := os }

/-- The sample order as `updateOrderStatus` leaves it after a transition
to "delivered" at time 5. -/
def deliveredOrder : Order :=
  { sampleOrder with status := "delivered", isDelivered := true, deliveredAt := some 5 }

/-- Sequential composition of the two adds of the spec's collapse
example: add quantity 2, then quantity 3, of the same product. -/
def addTwice (db : DB) (uid : String) (pid : Nat) : Except ApiError DB :=
  match addToCart db uid pid (some 2) with
  | .error e => .error e
  | .ok db2 => addToCart db2 uid pid (some 3)

/-- The local leg of a successful search at the effective page limit. -/
def localLeg (db : DB) (term : String) (category : Option String)
    (pageLimit : Nat) : List Product :=
  localSearch db.products term category pageLimit

/-- The external leg of a successful search: fetched exactly when the
caller passed the literal string "true" and the local results did not fill
the page, empty otherwise. -/
def externalLeg (db : DB) (term : String) (category : Option String)
    (pageLimit : Nat) (includeExternal : Option String)
    (extResponse : Option (List ExtRaw)) (randPrice : Int) (randId : String) :
    List ExtProduct :=
  if (includeExternal == some "true") &&
      decide ((localSearch db.products term category pageLimit).length <
        pageLimit) then
    fetchExternalProducts extResponse randPrice randId term
  else []

/-!  Helper lemmas about `updateFirst` and the embedded collections. -/

/-- Finding again after updating the found element: when `f` preserves the
predicate on elements satisfying it, `find?` returns the updated element. -/
theorem find?_updateFirst (p : α → Bool) (f : α → α)
    (hf : ∀ a, p a = true → p (f a) = true) :
    ∀ l : List α, (updateFirst p f l).find? p = (l.find? p).map f := by
  intro l
  induction l with
  | nil => rfl
  | cons a as ih =>
    by_cases hpa : p a = true
    · simp [updateFirst, hpa, List.find?_cons, hf a hpa]
    · have hpa' : p a = false := by simpa using hpa
      simp [updateFirst, hpa', List.find?_cons, ih]

/-- Updating the first match skips over an unmatched region. -/
theorem updateFirst_append_none (p : α → Bool) (f : α → α)
    (l l' : List α) (h : ∀ a ∈ l, p a = false) :
    updateFirst p f (l ++ l') = l ++ updateFirst p f l' := by
  induction l with
  | nil => rfl
  | cons a as ih =>
    have ha : p a = false := h a (by simp)
    simp only [List.cons_append, updateFirst, ha, Bool.false_eq_true,
      if_false, List.cons.injEq, true_and]
    exact ih (fun x hx => h x (by simp [hx]))

/-- Updating the first match is the identity when the found element is a
fixed point of the update. -/
theorem updateFirst_fix (p : α → Bool) (f : α → α) (l : List α) (c : α)
    (h : l.find? p = some c) (hc : f c = c) : updateFirst p f l = l := by
  induction l with
  | nil => simp at h
  | cons a as ih =>
    by_cases hpa : p a = true
    · have : a = c := by
        have := List.find?_cons_of_pos (p := p) (l := as) hpa
        rw [this] at h
        exact (Option.some.injEq _ _).mp h
      subst this
      simp [updateFirst, hpa, hc]
    · have hpa' : p a = false := by simpa using hpa
      have h' : as.find? p = some c := by
        rwa [List.find?_cons_of_neg (p := p) (l := as) (by simp [hpa'])] at h
      simp [updateFirst, hpa', ih h']

/-- Every cart produced by `Cart.setItems` keeps its key. -/
theorem setItems_userId (c : Cart) (its : List CartItem) :
    (c.setItems its).userId = c.userId := rfl

/-- Resolvability survives a stock decrement, and stock never grows. -/
theorem findProduct_decStock (ps : List Product) (pid q x : Nat) (p : Product)
    (h : findProduct ps x = some p) :
    ∃ p2, findProduct (decStock ps pid q) x = some p2 ∧ p2.stock ≤ p.stock := by
  induction ps with
  | nil => simp [findProduct] at h
  | cons a as ih =>
    by_cases hpid : (a.id == pid) = true
    · by_cases hx : (a.id == x) = true
      · refine ⟨{ a with stock := a.stock - q }, ?_, ?_⟩
        · simp [findProduct, decStock, updateFirst, hpid, List.find?_cons, hx]
        · have : p = a := by
            simp only [findProduct, List.find?_cons, hx] at h
            exact ((Option.some.injEq _ _).mp h).symm
          subst this
          exact Nat.sub_le _ _
      · have h' : findProduct as x = some p := by
          simp only [findProduct, List.find?_cons, hx] at h
          simpa [findProduct] using h
        refine ⟨p, ?_, le_refl _⟩
        simp only [decStock, updateFirst, hpid, if_true, findProduct,
          List.find?_cons]
        simp only [hx]
        simpa [findProduct] using h'
    · have hpid' : (a.id == pid) = false := by simpa using hpid
      by_cases hx : (a.id == x) = true
      · have : p = a := by
          simp only [findProduct, List.find?_cons, hx] at h
          exact ((Option.some.injEq _ _).mp h).symm
        subst this
        refine ⟨p, ?_, le_refl _⟩
        simp [findProduct, decStock, updateFirst, hpid', List.find?_cons, hx]
      · have h' : findProduct as x = some p := by
          simp only [findProduct, List.find?_cons, hx] at h
          simpa [findProduct] using h
        obtain ⟨p2, hp2, hle⟩ := ih h'
        refine ⟨p2, ?_, hle⟩
        simp only [decStock, updateFirst, hpid', Bool.false_eq_true, if_false,
          findProduct, List.find?_cons, hx]
        simpa [findProduct, decStock] using hp2

/-- If the reservation loop succeeds, every line that resolves against the
initial product collection fit within the initial stock (stock only ever
shrinks while the loop runs). -/
theorem reserveLoop_ok_stock (its : List OrderItemReq) (ps ps2 : List Product)
    (acc ls : List OrderLine)
    (h : reserveLoop its ps acc = (ps2, .ok ls)) :
    ∀ it ∈ its, ∀ p, findProduct ps it.product = some p →
      it.quantity ≤ p.stock := by
  induction its generalizing ps acc with
  | nil => intro it hit; simp at hit
  | cons it0 rest ih =>
    intro it hit p hp
    rcases List.mem_cons.mp hit with rfl | hmem
    · rw [reserveLoop] at h
      simp only [hp] at h
      by_cases hs : p.stock < it.quantity
      · rw [if_pos hs] at h
        exact absurd (congrArg Prod.snd h) (by simp)
      · exact Nat.le_of_not_lt hs
    · rw [reserveLoop] at h
      cases hf : findProduct ps it0.product with
      | none =>
        simp only [hf] at h
        exact ih _ _ h it hmem p hp
      | some p0 =>
        simp only [hf] at h
        by_cases hs : p0.stock < it0.quantity
        · rw [if_pos hs] at h
          exact absurd (congrArg Prod.snd h) (by simp)
        · rw [if_neg hs] at h
          obtain ⟨p2, hp2, hle⟩ :=
            findProduct_decStock ps it0.product it0.quantity it.product p hp
          exact le_trans (ih _ _ h it hmem p2 hp2) hle

/-- The only failure the reservation loop produces is insufficient stock. -/
theorem reserveLoop_error_kind (its : List OrderItemReq) (ps ps2 : List Product)
    (acc : List OrderLine) (e : ApiError)
    (h : reserveLoop its ps acc = (ps2, .error e)) : e = .insufficientStock := by
  induction its generalizing ps acc with
  | nil => exact absurd (congrArg Prod.snd h) (by simp [reserveLoop])
  | cons it0 rest ih =>
    rw [reserveLoop] at h
    cases hf : findProduct ps it0.product with
    | none =>
      simp only [hf] at h
      exact ih _ _ h
    | some p0 =>
      simp only [hf] at h
      by_cases hs : p0.stock < it0.quantity
      · rw [if_pos hs] at h
        have := congrArg Prod.snd h
        simp only at this
        exact ((Except.error.injEq _ _).mp this.symm)
      · rw [if_neg hs] at h
        exact ih _ _ h

/-- Every product the external fetch returns is tagged `source =
"external"`. -/
theorem fetchExternalProducts_source (response : Option (List ExtRaw))
    (randPrice : Int) (randId : String) (searchTerm : String) (e : ExtProduct)
    (he : e ∈ fetchExternalProducts response randPrice randId searchTerm) :
    e.source = "external" := by
  unfold fetchExternalProducts at he
  by_cases ht : (jsTrim searchTerm).length < 2
  · rw [if_pos ht] at he; simp at he
  · rw [if_neg ht] at he
    cases response with
    | none => simp at he
    | some raws =>
      simp only [List.mem_map] at he
      obtain ⟨raw, _, rfl⟩ := he
      rfl

/-- C7: for every search request whose term is absent, or whose trimmed
length is below 2 (including whitespace-only terms), the search fails with
`InvalidArgument` regardless of the category, limit, and includeExternal
parameters, and neither the local database nor the external catalog is
queried. -/
theorem C7_short_term_rejected (db : DB) (q : Option String)
    (category : Option String) (limit : Option Nat)
    (includeExternal : Option String) (extResponse : Option (List ExtRaw))
    (randPrice : Int) (randId : String)
    (hq : ∀ s, q = some s → (jsTrim s).length < 2) :
    searchProducts db q category limit includeExternal extResponse randPrice
      randId = ⟨.error .invalidArgument, false, false⟩ := by
  cases q with
  | none => rfl
  | some s =>
    have h2 : (jsTrim s).length < 2 := hq s rfl
    simp [searchProducts, h2]

/-- Witness for C7 at a whitespace-padded one-character term with every
other parameter supplied. -/
theorem C7_short_term_rejected_witness :
    searchProducts sampleDB (some " x ") (some "Dairy") (some 10) (some "true")
      sampleExtResponse 7 "r" = ⟨.error .invalidArgument, false, false⟩ :=
  C7_short_term_rejected sampleDB (some " x ") (some "Dairy") (some 10)
    (some "true") sampleExtResponse 7 "r" (by intro s hs; cases hs; decide)

/-- C10: whenever the `includeExternal` query parameter is not the literal
string "true" — in particular when it is absent, in which case it defaults
to the JS boolean `true`, which fails the strict comparison
`includeExternal === 'true'` — the external catalog is never queried and
any successful response reports `externalCount = 0`. -/
theorem C10_external_needs_explicit_true (db : DB)
    (q category : Option String) (limit : Option Nat)
    (includeExternal : Option String) (extResponse : Option (List ExtRaw))
    (randPrice : Int) (randId : String)
    (h : includeExternal ≠ some "true") :
    (searchProducts db q category limit includeExternal extResponse randPrice
      randId).externalQueried = false ∧
    ∀ r, (searchProducts db q category limit includeExternal extResponse
      randPrice randId).result = .ok r → r.externalCount = 0 := by
  have hb : (includeExternal == some "true") = false := by
    simpa using h
  cases q with
  | none =>
    refine ⟨rfl, ?_⟩
    intro r hr
    simp [searchProducts] at hr
  | some s =>
    by_cases h2 : (jsTrim s).length < 2
    · refine ⟨?_, ?_⟩
      · simp [searchProducts, h2]
      · intro r hr
        simp [searchProducts, h2] at hr
    · refine ⟨?_, ?_⟩
      · simp [searchProducts, h2, hb]
      · intro r hr
        simp only [searchProducts, h2, if_false, hb, Bool.false_and,
          if_neg, Except.ok.injEq] at hr
        rw [← hr]
        rfl

/-- Witness for C10: the parameter is absent, the external response is
available, and the local count (1) is below the limit (10) — yet the
external catalog is not queried. -/
theorem C10_external_needs_explicit_true_witness :
    (searchProducts sampleDB (some "milk") none (some 10) none
      sampleExtResponse 7 "r").externalQueried = false :=
  (C10_external_needs_explicit_true sampleDB (some "milk") none (some 10) none
    sampleExtResponse 7 "r" (by decide)).1

/-- C5 counterexample: removing an item when no cart record exists for the
identity is not a no-op success — the controller reports `NotFound`. -/
theorem C5_counterexample :
    removeFromCart sampleDB "nobody" 1 = .error .notFound := rfl

/-- C5 (amended): removing an absent line is a no-op success when a cart
record exists, and clearing an absent cart is a no-op success; but
removing any line when no cart record exists fails with `NotFound`. -/
theorem C5_remove_clear_amended (db : DB) (uid uid2 uid3 : String)
    (pid pid2 : Nat) :
    (∀ c, findCart db.carts uid = some c →
      c.items.find? (fun it => it.productId == pid) = none →
      removeFromCart db uid pid = .ok db) ∧
    (findCart db.carts uid2 = none →
      removeFromCart db uid2 pid2 = .error .notFound) ∧
    (findCart db.carts uid3 = none → clearCart db uid3 = .ok db) := by
  refine ⟨?_, ?_, ?_⟩
  · intro c hc hline
    have hall : ∀ it ∈ c.items, (it.productId == pid) = false := by
      intro it hit
      have := List.find?_eq_none.mp hline it hit
      simpa using this
    have hfilter : c.items.filter (fun it => !(it.productId == pid)) = c.items := by
      apply List.filter_eq_self.mpr
      intro it hit
      simp [hall it hit]
    rw [removeFromCart]
    simp only [hc]
    have hfix : (fun c' => c'.setItems
        (c'.items.filter (fun it => !(it.productId == pid)))) c = c := by
      show c.setItems (c.items.filter (fun it => !(it.productId == pid))) = c
      rw [hfilter]
      cases c
      rfl
    rw [updCartItems, updateFirst_fix _ _ _ _ hc hfix]
    cases db
    rfl
  · intro h
    rw [removeFromCart]
    simp only [h]
  · intro h
    rw [clearCart]
    simp only [h]

/-- Witness for C5 (amended): removing an absent line from the existing
cart of "u" succeeds unchanged; removing from and clearing identities with
no cart give `NotFound` and success respectively. -/
theorem C5_remove_clear_amended_witness :
    removeFromCart sampleDB "u" 99 = .ok sampleDB ∧
    removeFromCart sampleDB "nobody" 1 = .error .notFound ∧
    clearCart sampleDB "ghost" = .ok sampleDB :=
  ⟨(C5_remove_clear_amended sampleDB "u" "nobody" "ghost" 99 1).1
      { userId := "u", items := [⟨1, 1⟩] } rfl rfl,
   (C5_remove_clear_amended sampleDB "u" "nobody" "ghost" 99 1).2.1 rfl,
   (C5_remove_clear_amended sampleDB "u" "nobody" "ghost" 99 1).2.2 rfl⟩

/-- C3 counterexample: a guest add of 50 units of a product with stock 3
succeeds (no stock check on the guest path), where the claim demands an
`InsufficientStock` failure. -/
theorem C3_counterexample :
    findProduct sampleDB.products 2 = some honey ∧ honey.stock = 3 ∧
    addToGuestCart sampleDB "sess" 2 (some 50) =
      .ok (sampleDB.setCarts (sampleDB.carts ++
        [{ userId := "sess", items := [⟨2, 50⟩], isGuest := true }])) :=
  ⟨rfl, rfl, rfl⟩

/-- C3 (amended): the authenticated `addToCart` fails with
`InsufficientStock` whenever current stock is below the existing line
quantity plus the added quantity; the guest `addToGuestCart` performs no
stock check and succeeds for every resolvable product. -/
theorem C3_stock_check_amended (db : DB) (uid sid : String) (pid : Nat)
    (q : Option Nat) (p : Product)
    (hp : findProduct db.products pid = some p) :
    (p.stock < existingQty db uid pid + jsOrNat q 1 →
      addToCart db uid pid q = .error .insufficientStock) ∧
    (addToGuestCart db sid pid q).isOk = true := by
  constructor
  · intro hlt
    rw [addToCart]
    simp only [hp]
    by_cases h1 : p.stock < jsOrNat q 1
    · rw [if_pos h1]
    · rw [if_neg h1]
      cases hc : findCart db.carts uid with
      | none =>
        exfalso
        have : existingQty db uid pid = 0 := by
          rw [existingQty, userCartItems, hc]
          rfl
        rw [this, Nat.zero_add] at hlt
        exact h1 hlt
      | some c =>
        cases hit : c.items.find? (fun it => it.productId == pid) with
        | none =>
          exfalso
          have : existingQty db uid pid = 0 := by
            rw [existingQty, userCartItems, hc]
            simp [hit]
          rw [this, Nat.zero_add] at hlt
          exact h1 hlt
        | some it =>
          have heq : existingQty db uid pid = it.quantity := by
            rw [existingQty, userCartItems, hc]
            simp [hit]
          rw [heq] at hlt
          simp only [hit]
          rw [if_pos hlt]
  · rw [addToGuestCart]
    simp only [hp]
    cases hc : findCart db.carts sid with
    | none =>
      simp only [hc]
      rfl
    | some c =>
      cases hit : c.items.find? (fun it => it.productId == pid) with
      | none =>
        simp only [hc, hit]
        rfl
      | some it =>
        simp only [hc, hit]
        rfl

/-- Witness for C3 (amended): adding 5 milk to the cart of "u" (existing
line quantity 1, stock 5 < 6) fails on the authenticated path, while the
same guest add succeeds. -/
theorem C3_stock_check_amended_witness :
    addToCart sampleDB "u" 1 (some 5) = .error .insufficientStock ∧
    (addToGuestCart sampleDB "sess" 1 (some 5)).isOk = true :=
  ⟨(C3_stock_check_amended sampleDB "u" "sess" 1 (some 5) milk rfl).1
      (by decide),
   (C3_stock_check_amended sampleDB "u" "sess" 1 (some 5) milk rfl).2⟩

/-- The status transition never changes the order id. -/
theorem applyStatus_id (s : String) (now : Nat) (o : Order) :
    (applyStatus s now o).id = o.id := by
  rw [applyStatus]
  split <;> rfl

/-- Reduction of a successful "delivered" transition. -/
theorem updateOrderStatus_delivered (db : DB) (oid : Nat) (now : Nat)
    (o : Order) (hf : findOrder db.orders oid = some o) :
    updateOrderStatus db oid (some "delivered") now =
      (db.setOrders (updateFirst (fun o2 => o2.id == oid)
          (fun _ => applyStatus "delivered" now o) db.orders),
       .ok (applyStatus "delivered" now o)) := by
  rw [updateOrderStatus]
  rw [if_neg (by decide : ¬(("delivered" : String) = ""))]
  rw [if_neg (by decide : ¬((!(validStatuses.contains "delivered")) = true))]
  simp only [hf]
  rfl

/-- C6: `setStatus` fails with `InvalidArgument` on a status outside the
four-value enumeration; a transition to "delivered" sets `isDelivered` and
a non-null `deliveredAt`; and re-applying the "delivered" transition keeps
both fields set. -/
theorem C6_setStatus (db : DB) (oid : Nat) (s : String) (now now2 : Nat) :
    (validStatuses.contains s = false →
      updateOrderStatus db oid (some s) now = (db, .error .invalidArgument)) ∧
    (∀ o2, (updateOrderStatus db oid (some "delivered") now).2 = .ok o2 →
      o2.isDelivered = true ∧ o2.deliveredAt ≠ none) ∧
    (∀ o2, (updateOrderStatus db oid (some "delivered") now).2 = .ok o2 →
      (updateOrderStatus (updateOrderStatus db oid (some "delivered") now).1
          oid (some "delivered") now2).2 =
        .ok (applyStatus "delivered" now2 o2) ∧
      (applyStatus "delivered" now2 o2).isDelivered = true ∧
      (applyStatus "delivered" now2 o2).deliveredAt ≠ none) := by
  refine ⟨?_, ?_, ?_⟩
  · intro hs
    by_cases h0 : s = ""
    · rw [updateOrderStatus, if_pos h0]
    · rw [updateOrderStatus, if_neg h0]
      simp only [hs, Bool.not_false, if_true]
  · intro o2 h
    cases hf : findOrder db.orders oid with
    | none =>
      rw [updateOrderStatus] at h
      rw [if_neg (by decide : ¬(("delivered" : String) = ""))] at h
      rw [if_neg (by decide :
        ¬((!(validStatuses.contains "delivered")) = true))] at h
      simp only [hf] at h
      exact Except.noConfusion h
    | some o =>
      rw [updateOrderStatus_delivered db oid now o hf] at h
      have ho2 : applyStatus "delivered" now o = o2 := by
        simpa using h
      rw [← ho2]
      constructor
      · rw [applyStatus, if_pos (by decide : (("delivered" : String) ==
          "delivered") = true)]
      · rw [applyStatus, if_pos (by decide : (("delivered" : String) ==
          "delivered") = true)]
        simp
  · intro o2 h
    cases hf : findOrder db.orders oid with
    | none =>
      rw [updateOrderStatus] at h
      rw [if_neg (by decide : ¬(("delivered" : String) = ""))] at h
      rw [if_neg (by decide :
        ¬((!(validStatuses.contains "delivered")) = true))] at h
      simp only [hf] at h
      exact Except.noConfusion h
    | some o =>
      rw [updateOrderStatus_delivered db oid now o hf] at h ⊢
      have ho2 : applyStatus "delivered" now o = o2 := by
        simpa using h
      have hf' : db.orders.find? (fun o3 => o3.id == oid) = some o := hf
      have hoid : (o.id == oid) = true :=
        @List.find?_some Order (fun o3 => o3.id == oid) o db.orders hf'
      have hfind2 : findOrder (updateFirst (fun o3 => o3.id == oid)
          (fun _ => applyStatus "delivered" now o) db.orders) oid =
          some (applyStatus "delivered" now o) := by
        rw [findOrder, find?_updateFirst (fun o3 => o3.id == oid)
          (fun _ => applyStatus "delivered" now o) ?_ db.orders]
        · rw [hf']
          rfl
        · intro a _
          have hid : (applyStatus "delivered" now o).id = o.id :=
            applyStatus_id _ _ _
          show ((applyStatus "delivered" now o).id == oid) = true
          rw [hid]
          exact hoid
      refine ⟨?_, ?_, ?_⟩
      · rw [updateOrderStatus_delivered _ oid now2 _ hfind2]
        rw [ho2]
      · rw [applyStatus, if_pos (by decide : (("delivered" : String) ==
          "delivered") = true)]
      · rw [applyStatus, if_pos (by decide : (("delivered" : String) ==
          "delivered") = true)]
        simp

/-- Witness for C6: an unknown status is rejected on the sample order
store; delivering at time 5 sets both delivery fields; re-delivering at
time 6 succeeds and keeps them set. -/
theorem C6_setStatus_witness :
    updateOrderStatus orderDB 0 (some "refunded") 5 =
      (orderDB, .error .invalidArgument) ∧
    (deliveredOrder.isDelivered = true ∧ deliveredOrder.deliveredAt ≠ none) ∧
    ((updateOrderStatus (updateOrderStatus orderDB 0 (some "delivered") 5).1 0
        (some "delivered") 6).2 = .ok (applyStatus "delivered" 6 deliveredOrder) ∧
      (applyStatus "delivered" 6 deliveredOrder).isDelivered = true ∧
      (applyStatus "delivered" 6 deliveredOrder).deliveredAt ≠ none) :=
  ⟨(C6_setStatus orderDB 0 "refunded" 5 6).1 (by decide),
   (C6_setStatus orderDB 0 "refunded" 5 6).2.1 deliveredOrder rfl,
   (C6_setStatus orderDB 0 "refunded" 5 6).2.2 deliveredOrder rfl⟩

/-- The controller-level validation of `createOrder`: any of the payload
defects it checks yields the 400 rejection with the store untouched. -/
theorem createOrder_rejects_invalid (db : DB) (uid : String)
    (req : CreateOrderReq)
    (h : orderItemsOf req = none ∨ orderItemsOf req = some [] ∨
      req.totalAmount ≤ 0 ∨ jsOrO req.shippingAddress req.address = none ∨
      (∃ a, jsOrO req.shippingAddress req.address = some a ∧
        addressComplete (normalizeAddress a) = false)) :
    createOrder db uid req = (db, .error .invalidArgument) := by
  rw [createOrder]
  cases hio : orderItemsOf req with
  | none => rfl
  | some its =>
    simp only
    by_cases he : its.isEmpty
    · rw [if_pos he]
    · rw [if_neg he]
      by_cases ht : req.totalAmount ≤ 0
      · rw [if_pos ht]
      · rw [if_neg ht]
        cases ha : jsOrO req.shippingAddress req.address with
        | none => rfl
        | some a =>
          simp only
          by_cases hcomp : addressComplete (normalizeAddress a) = true
          · exfalso
            rcases h with h | h | h | h | ⟨a2, ha2, hff⟩
            · rw [hio] at h
              cases h
            · rw [hio] at h
              have : its = [] := by
                simpa using h
              rw [this] at he
              exact he rfl
            · exact ht h
            · rw [ha] at h
              cases h
            · rw [ha] at ha2
              have : a2 = a := by
                simpa using ha2.symm
              rw [this] at hff
              rw [hcomp] at hff
              cases hff
          · have hfalse : addressComplete (normalizeAddress a) = false := by
              cases hb : addressComplete (normalizeAddress a)
              · rfl
              · exact absurd hb hcomp
            rw [hfalse]
            rfl

/-- C2: the create-order endpoint (the `validateOrder` middleware, then
the controller) rejects with `InvalidArgument` — leaving the store
untouched, so no Order is persisted and no stock is decremented — when
the cart snapshot is absent or empty, when `totalAmount ≤ 0`, when the
normalized shipping address is missing any of street/city/state/zipCode,
or when `paymentMethod` is absent (the middleware rejects the absent
payment method; the other defects are also caught by the controller). -/
theorem C2_order_validation (db : DB) (uid : String) (req : CreateOrderReq)
    (h : orderItemsOf req = none ∨ orderItemsOf req = some [] ∨
      req.totalAmount ≤ 0 ∨ jsOrO req.shippingAddress req.address = none ∨
      (∃ a, jsOrO req.shippingAddress req.address = some a ∧
        addressComplete (normalizeAddress a) = false) ∨
      req.paymentMethod = none) :
    createOrderEndpoint db uid req = (db, .error .invalidArgument) := by
  rw [createOrderEndpoint]
  by_cases hv : (validateOrder req).isEmpty = true
  · rw [if_pos hv]
    rcases h with h | h | h | h | h | h
    · exact createOrder_rejects_invalid db uid req (Or.inl h)
    · exact createOrder_rejects_invalid db uid req (Or.inr (Or.inl h))
    · exact createOrder_rejects_invalid db uid req (Or.inr (Or.inr (Or.inl h)))
    · exact createOrder_rejects_invalid db uid req
        (Or.inr (Or.inr (Or.inr (Or.inl h))))
    · exact createOrder_rejects_invalid db uid req
        (Or.inr (Or.inr (Or.inr (Or.inr h))))
    · exfalso
      rw [validateOrder, h] at hv
      simp at hv
  · rw [if_neg hv]

/-- Witness for C2: the payment-less but otherwise valid request and the
empty-items request are both rejected by the endpoint with the store
unchanged. -/
theorem C2_order_validation_witness :
    createOrderEndpoint sampleDB "u" noPaymentReq =
      (sampleDB, .error .invalidArgument) ∧
    createOrderEndpoint sampleDB "u" emptyItemsReq =
      (sampleDB, .error .invalidArgument) :=
  ⟨C2_order_validation sampleDB "u" noPaymentReq
      (Or.inr (Or.inr (Or.inr (Or.inr (Or.inr rfl))))),
   C2_order_validation sampleDB "u" emptyItemsReq (Or.inr (Or.inl rfl))⟩

/-- C1 counterexample: a two-line checkout whose second line overshoots
the stock of honey fails with `InsufficientStock`, but the first line's
milk stock has already been decremented from 5 to 4 — the reservation
loop is not all-or-nothing for the other resolvable lines of the same
request. -/
theorem C1_counterexample :
    (createOrder sampleDB "u" overshootReq).2 = .error .insufficientStock ∧
    findProduct sampleDB.products 1 = some milk ∧ milk.stock = 5 ∧
    findProduct (createOrder sampleDB "u" overshootReq).1.products 1 =
      some { milk with stock := 4 } :=
  ⟨rfl, rfl, rfl, rfl⟩

/-- C1 (amended): a createOrder request passing validation and containing
a line over a resolvable product whose quantity exceeds current stock
fails with `InsufficientStock`, persists no Order, and leaves the carts
untouched; however, stock decrements saved for resolvable lines processed
before the failing line are retained (the loop is not all-or-nothing). -/
theorem C1_insufficient_aborts_amended (db : DB) (uid : String)
    (req : CreateOrderReq) (its : List OrderItemReq) (it : OrderItemReq)
    (p : Product)
    (hits : orderItemsOf req = some its) (hit : it ∈ its)
    (hp : findProduct db.products it.product = some p)
    (hq : p.stock < it.quantity)
    (htot : 0 < req.totalAmount)
    (haddr : ∃ a, jsOrO req.shippingAddress req.address = some a ∧
      addressComplete (normalizeAddress a) = true) :
    (createOrder db uid req).2 = .error .insufficientStock ∧
    (createOrder db uid req).1.orders = db.orders ∧
    (createOrder db uid req).1.carts = db.carts := by
  obtain ⟨a, ha, hcomp⟩ := haddr
  have hne : its.isEmpty = false := by
    cases its with
    | nil => simp at hit
    | cons x xs => rfl
  have hnt : ¬(req.totalAmount ≤ 0) := not_le.mpr htot
  cases hres : reserveLoop its db.products [] with
  | mk ps2 r =>
    cases r with
    | ok lines =>
      exact absurd hq (not_lt.mpr
        (reserveLoop_ok_stock its db.products ps2 [] lines hres it hit p hp))
    | error e =>
      have he : e = .insufficientStock :=
        reserveLoop_error_kind its db.products ps2 [] e hres
      subst he
      have hkey : createOrder db uid req =
          ({ db with products := ps2 }, .error .insufficientStock) := by
        rw [createOrder, hits]
        simp only [hne, Bool.false_eq_true, if_false]
        rw [if_neg hnt, ha]
        simp only [hcomp, Bool.not_true, Bool.false_eq_true, if_false]
        rw [hres]
      rw [hkey]
      exact ⟨rfl, rfl, rfl⟩

/-- Witness for C1 (amended) at the concrete overshooting request: the
failure is `InsufficientStock` and neither orders nor carts change. -/
theorem C1_insufficient_aborts_amended_witness :
    (createOrder sampleDB "u" overshootReq).2 = .error .insufficientStock ∧
    (createOrder sampleDB "u" overshootReq).1.orders = sampleDB.orders ∧
    (createOrder sampleDB "u" overshootReq).1.carts = sampleDB.carts :=
  C1_insufficient_aborts_amended sampleDB "u" overshootReq
    [{ product := 1, quantity := 1 }, { product := 2, quantity := 10 }]
    { product := 2, quantity := 10 } honey rfl (by decide) rfl (by decide)
    (by decide) ⟨sampleAddr, rfl, by decide⟩

/-- C9: `setItemQuantity` fails with `InvalidArgument` for quantities
below 1, with `NotFound` when there is no cart or no matching line, with
`InsufficientStock` when the quantity exceeds current stock, and otherwise
overwrites the line's quantity with exactly the requested value (an
absolute set, not a delta). -/
theorem C9_setItemQuantity (db : DB) (uid : String) (pid : Nat) (q : Int)
    (p : Product) (hp : findProduct db.products pid = some p) :
    (q < 1 → updateCartItem db uid pid q = .error .invalidArgument) ∧
    (1 ≤ q → (p.stock : Int) < q →
      updateCartItem db uid pid q = .error .insufficientStock) ∧
    (1 ≤ q → q ≤ (p.stock : Int) → findCart db.carts uid = none →
      updateCartItem db uid pid q = .error .notFound) ∧
    (∀ c, 1 ≤ q → q ≤ (p.stock : Int) → findCart db.carts uid = some c →
      c.items.find? (fun it => it.productId == pid) = none →
      updateCartItem db uid pid q = .error .notFound) ∧
    (1 ≤ q → q ≤ (p.stock : Int) → ∀ n, lineQty db uid pid = some n →
      updateCartItem db uid pid q =
        .ok (updCartItems db uid (setLineQty pid q.toNat)) ∧
      lineQty (updCartItems db uid (setLineQty pid q.toNat)) uid pid =
        some q.toNat) := by
  refine ⟨?_, ?_, ?_, ?_, ?_⟩
  · intro hlt
    by_cases hq0 : q = 0
    · rw [updateCartItem, if_pos hq0]
    · rw [updateCartItem, if_neg hq0, if_pos hlt]
  · intro h1 hlt
    have hq0 : ¬(q = 0) := by omega
    have hq1 : ¬(q < 1) := by omega
    rw [updateCartItem, if_neg hq0, if_neg hq1]
    simp only [hp]
    rw [if_pos hlt]
  · intro h1 hle hc
    have hq0 : ¬(q = 0) := by omega
    have hq1 : ¬(q < 1) := by omega
    rw [updateCartItem, if_neg hq0, if_neg hq1]
    simp only [hp, hc]
    rw [if_neg (not_lt.mpr hle)]
  · intro c h1 hle hc hline
    have hq0 : ¬(q = 0) := by omega
    have hq1 : ¬(q < 1) := by omega
    rw [updateCartItem, if_neg hq0, if_neg hq1]
    simp only [hp, hc, hline]
    rw [if_neg (not_lt.mpr hle)]
  · intro h1 hle n hn
    have hq0 : ¬(q = 0) := by omega
    have hq1 : ¬(q < 1) := by omega
    rw [lineQty, userCartItems] at hn
    cases hc : findCart db.carts uid with
    | none => simp [hc] at hn
    | some c =>
      simp only [hc] at hn
      cases hit : c.items.find? (fun it => it.productId == pid) with
      | none => simp [hit] at hn
      | some it =>
        constructor
        · rw [updateCartItem, if_neg hq0, if_neg hq1]
          simp only [hp, hc, hit]
          rw [if_neg (not_lt.mpr hle)]
        · have hcarts : findCart (updCartItems db uid
              (setLineQty pid q.toNat)).carts uid =
              some (Cart.setItems c (setLineQty pid q.toNat c.items)) := by
            show findCart (updateFirst (fun c2 => c2.userId == uid)
              (fun c2 => c2.setItems (setLineQty pid q.toNat c2.items))
              db.carts) uid = _
            rw [findCart, find?_updateFirst (fun c2 => c2.userId == uid)
              (fun c2 => c2.setItems (setLineQty pid q.toNat c2.items))
              (fun a ha => ha) db.carts]
            rw [show db.carts.find? (fun c2 => c2.userId == uid) = some c
              from hc]
            rfl
          rw [lineQty, userCartItems, hcarts]
          show ((setLineQty pid q.toNat c.items).find?
            (fun it2 => it2.productId == pid)).map (fun it2 => it2.quantity) =
            some q.toNat
          rw [setLineQty, find?_updateFirst (fun it2 => it2.productId == pid)
            (fun it2 => it2.setQty q.toNat) (fun a ha => ha) c.items]
          rw [show c.items.find? (fun it2 => it2.productId == pid) = some it
            from hit]
          rfl

/-- Witness for C9: the five contract cases at concrete inputs over the
sample store ("u" holds one milk line; milk stock 5, honey stock 3). -/
theorem C9_setItemQuantity_witness :
    updateCartItem sampleDB "u" 1 0 = .error .invalidArgument ∧
    updateCartItem sampleDB "u" 1 9 = .error .insufficientStock ∧
    updateCartItem sampleDB "nobody" 1 4 = .error .notFound ∧
    updateCartItem sampleDB "u" 2 2 = .error .notFound ∧
    (updateCartItem sampleDB "u" 1 4 =
      .ok (updCartItems sampleDB "u" (setLineQty 1 4)) ∧
     lineQty (updCartItems sampleDB "u" (setLineQty 1 4)) "u" 1 = some 4) :=
  ⟨(C9_setItemQuantity sampleDB "u" 1 0 milk rfl).1 (by decide),
   (C9_setItemQuantity sampleDB "u" 1 9 milk rfl).2.1 (by decide) (by decide),
   (C9_setItemQuantity sampleDB "nobody" 1 4 milk rfl).2.2.1 (by decide)
     (by decide) rfl,
   (C9_setItemQuantity sampleDB "u" 2 2 honey rfl).2.2.2.1
     { userId := "u", items := [⟨1, 1⟩] } (by decide) (by decide) rfl rfl,
   (C9_setItemQuantity sampleDB "u" 1 4 milk rfl).2.2.2.2 (by decide)
     (by decide) 1 rfl⟩

/-- Reduction of `addToCart` when no line for the product exists yet (the
cart itself may or may not exist): a fresh line is appended, and the
product and order collections are untouched. -/
theorem addToCart_fresh (db : DB) (uid : String) (pid : Nat) (q : Option Nat)
    (p : Product) (hp : findProduct db.products pid = some p)
    (hfresh : (userCartItems db uid).find?
      (fun it => it.productId == pid) = none)
    (hs : ¬(p.stock < jsOrNat q 1)) :
    ∃ db2, addToCart db uid pid q = .ok db2 ∧
      db2.products = db.products ∧
      userCartItems db2 uid =
        userCartItems db uid ++ [⟨pid, jsOrNat q 1⟩] := by
  rw [addToCart]
  simp only [hp]
  rw [if_neg hs]
  cases hc : findCart db.carts uid with
  | none =>
    simp only [hc]
    refine ⟨_, rfl, rfl, ?_⟩
    have h0 : userCartItems db uid = [] := by
      rw [userCartItems, hc]
    rw [h0]
    show (match findCart (db.carts ++
      [{ userId := uid, items := [(⟨pid, jsOrNat q 1⟩ : CartItem)] }]) uid with
      | some c => c.items
      | none => []) = [] ++ [(⟨pid, jsOrNat q 1⟩ : CartItem)]
    rw [findCart, List.find?_append]
    rw [show db.carts.find? (fun c => c.userId == uid) = none from hc]
    simp
  | some c =>
    have hitems : userCartItems db uid = c.items := by
      rw [userCartItems, hc]
    rw [hitems] at hfresh ⊢
    simp only [hc, hfresh]
    refine ⟨_, rfl, rfl, ?_⟩
    show (match findCart (updateFirst (fun c2 => c2.userId == uid)
      (fun c2 => c2.setItems (c2.items ++ [(⟨pid, jsOrNat q 1⟩ : CartItem)]))
      db.carts) uid with
      | some c2 => c2.items
      | none => []) = c.items ++ [(⟨pid, jsOrNat q 1⟩ : CartItem)]
    rw [findCart, find?_updateFirst (fun c2 => c2.userId == uid)
      (fun c2 => c2.setItems (c2.items ++ [(⟨pid, jsOrNat q 1⟩ : CartItem)]))
      (fun a ha => ha) db.carts]
    rw [show db.carts.find? (fun c2 => c2.userId == uid) = some c from hc]
    rfl

/-- Reduction of `addToCart` when a line for the product already exists
and the summed quantity fits within stock: the line's quantity becomes the
sum, and the product collection is untouched. -/
theorem addToCart_increment (db : DB) (uid : String) (pid : Nat)
    (q : Option Nat) (p : Product) (c : Cart) (it : CartItem)
    (hp : findProduct db.products pid = some p)
    (hc : findCart db.carts uid = some c)
    (hit : c.items.find? (fun it2 => it2.productId == pid) = some it)
    (hs1 : ¬(p.stock < jsOrNat q 1))
    (hs2 : ¬(p.stock < it.quantity + jsOrNat q 1)) :
    ∃ db2, addToCart db uid pid q = .ok db2 ∧
      db2.products = db.products ∧
      userCartItems db2 uid =
        setLineQty pid (it.quantity + jsOrNat q 1) c.items := by
  rw [addToCart]
  simp only [hp]
  rw [if_neg hs1]
  simp only [hc, hit]
  rw [if_neg hs2]
  refine ⟨_, rfl, rfl, ?_⟩
  rw [userCartItems]
  show (match findCart (updateFirst (fun c2 => c2.userId == uid)
    (fun c2 => c2.setItems
      (setLineQty pid (it.quantity + jsOrNat q 1) c2.items)) db.carts)
      uid with
    | some c2 => c2.items
    | none => []) = setLineQty pid (it.quantity + jsOrNat q 1) c.items
  rw [findCart, find?_updateFirst (fun c2 => c2.userId == uid)
    (fun c2 => c2.setItems
      (setLineQty pid (it.quantity + jsOrNat q 1) c2.items))
    (fun a ha => ha) db.carts]
  rw [show db.carts.find? (fun c2 => c2.userId == uid) = some c from hc]
  rfl

/-- C4: on a cart with no existing line for the product, add(p,2) then
add(p,3) collapses to exactly one line for p of quantity 5 when stock
allows, and fails with `InsufficientStock` instead of exceeding current
stock when it does not (the first add succeeding). -/
theorem C4_addItem_collapse (db : DB) (uid : String) (pid : Nat) (p : Product)
    (hp : findProduct db.products pid = some p)
    (hfresh : (userCartItems db uid).find?
      (fun it => it.productId == pid) = none) :
    (5 ≤ p.stock →
      (addTwice db uid pid).map
          (fun d => (userCartItems d uid).filter
            (fun it => it.productId == pid)) =
        .ok [⟨pid, 5⟩]) ∧
    (2 ≤ p.stock → p.stock < 5 →
      addTwice db uid pid = .error .insufficientStock) := by
  have hall : ∀ x ∈ userCartItems db uid,
      (fun it => it.productId == pid) x = false := by
    intro x hx
    have hnx := List.find?_eq_none.mp hfresh x hx
    simpa using hnx
  have main : 2 ≤ p.stock → ∃ db2 c2, addToCart db uid pid (some 2) = .ok db2 ∧
      findProduct db2.products pid = some p ∧
      findCart db2.carts uid = some c2 ∧
      c2.items = userCartItems db uid ++ [⟨pid, 2⟩] ∧
      c2.items.find? (fun it2 => it2.productId == pid) = some ⟨pid, 2⟩ := by
    intro hs
    have hs1 : ¬(p.stock < jsOrNat (some 2) 1) := by
      show ¬(p.stock < 2)
      omega
    obtain ⟨db2, hstep1, hprod2, hitems2⟩ :=
      addToCart_fresh db uid pid (some 2) p hp hfresh hs1
    have hj2 : jsOrNat (some 2) 1 = 2 := rfl
    rw [hj2] at hitems2
    cases hc2 : findCart db2.carts uid with
    | none =>
      rw [userCartItems, hc2] at hitems2
      exact absurd hitems2 (by simp)
    | some c2 =>
      have hc2items : c2.items = userCartItems db uid ++ [⟨pid, 2⟩] := by
        rw [userCartItems, hc2] at hitems2
        exact hitems2
      refine ⟨db2, c2, hstep1, ?_, hc2, hc2items, ?_⟩
      · rw [hprod2]
        exact hp
      · rw [hc2items, List.find?_append, hfresh]
        simp
  constructor
  · intro hs5
    obtain ⟨db2, c2, hstep1, hp2, hc2, hc2items, hit2⟩ := main (by omega)
    have hs1' : ¬(p.stock < jsOrNat (some 3) 1) := by
      show ¬(p.stock < 3)
      omega
    have hs2' : ¬(p.stock <
        (⟨pid, 2⟩ : CartItem).quantity + jsOrNat (some 3) 1) := by
      show ¬(p.stock < 2 + 3)
      omega
    obtain ⟨db3, hstep2, hprod3, hitems3⟩ :=
      addToCart_increment db2 uid pid (some 3) p c2 ⟨pid, 2⟩ hp2 hc2 hit2
        hs1' hs2'
    rw [addTwice]
    simp only [hstep1, hstep2]
    have hj5 : (⟨pid, 2⟩ : CartItem).quantity + jsOrNat (some 3) 1 = 5 := rfl
    rw [hj5] at hitems3
    show Except.ok ((userCartItems db3 uid).filter
      (fun it => it.productId == pid)) = Except.ok [⟨pid, 5⟩]
    rw [hitems3, hc2items, setLineQty,
      updateFirst_append_none _ _ _ _ hall, List.filter_append]
    rw [List.filter_eq_nil_iff.mpr ?_]
    · simp [updateFirst, CartItem.setQty]
    · intro x hx
      simp [hall x hx]
  · intro hs2lo hlt5
    obtain ⟨db2, c2, hstep1, hp2, hc2, hc2items, hit2⟩ := main hs2lo
    rw [addTwice]
    simp only [hstep1]
    rw [addToCart]
    simp only [hp2]
    by_cases h3 : p.stock < jsOrNat (some 3) 1
    · rw [if_pos h3]
    · rw [if_neg h3]
      simp only [hc2, hit2]
      rw [if_pos (show p.stock <
        (⟨pid, 2⟩ : CartItem).quantity + jsOrNat (some 3) 1 by
          show p.stock < 2 + 3
          omega)]

/-- Witness for C4: for the fresh identity "v" over milk (stock 5) the two
adds collapse to one line of quantity 5; for the fresh identity "w" over
honey (stock 3) the composition fails with `InsufficientStock`. -/
theorem C4_addItem_collapse_witness :
    (addTwice sampleDB "v" 1).map
        (fun d => (userCartItems d "v").filter
          (fun it => it.productId == 1)) = .ok [⟨1, 5⟩] ∧
    addTwice sampleDB "w" 2 = .error .insufficientStock :=
  ⟨(C4_addItem_collapse sampleDB "v" 1 milk rfl rfl).1 (by decide),
   (C4_addItem_collapse sampleDB "w" 2 honey rfl rfl).2 (by decide) (by decide)⟩

/-- C8: a successful search responds with the concatenation of the local
results (tagged `source = "local"`) followed by the external results
(tagged `source = "external"`), truncated to the effective limit
`min(requested, 50)`, and reports the per-source counts alongside. -/
theorem C8_search_combination (db : DB) (qs : String)
    (category : Option String) (lim : Nat) (includeExternal : Option String)
    (extResponse : Option (List ExtRaw)) (randPrice : Int) (randId : String)
    (hq : 2 ≤ (jsTrim qs).length) (hl : 1 ≤ lim) :
    (searchProducts db (some qs) category (some lim) includeExternal
        extResponse randPrice randId).result =
      .ok { query := jsTrim qs,
            totalResults := (localLeg db (jsTrim qs) category (min lim 50)).length + (externalLeg db (jsTrim qs) category (min lim 50) includeExternal extResponse randPrice randId).length,
            localCount := (localLeg db (jsTrim qs) category (min lim 50)).length,
            externalCount := (externalLeg db (jsTrim qs) category (min lim 50) includeExternal extResponse randPrice randId).length,
            data := ((localLeg db (jsTrim qs) category (min lim 50)).map SearchEntry.loc ++ (externalLeg db (jsTrim qs) category (min lim 50) includeExternal extResponse randPrice randId).map SearchEntry.ext).take (min lim 50) } ∧
    (∀ pr, (SearchEntry.loc pr).source = "local") ∧
    (∀ e ∈ externalLeg db (jsTrim qs) category (min lim 50) includeExternal
      extResponse randPrice randId, e.source = "external") ∧
    (∀ x ∈ ((localLeg db (jsTrim qs) category (min lim 50)).map
        SearchEntry.loc ++ (externalLeg db (jsTrim qs) category (min lim 50)
        includeExternal extResponse randPrice randId).map
        SearchEntry.ext).take (min lim 50),
      x.source = "local" ∨ x.source = "external") := by
  have hnot : ¬((jsTrim qs).length < 2) := not_lt.mpr hq
  have hjl : jsOrNat (some lim) 10 = lim := by
    rw [jsOrNat]
    rw [if_neg (by omega : ¬(lim = 0))]
  have hextmem : ∀ e ∈ externalLeg db (jsTrim qs) category (min lim 50)
      includeExternal extResponse randPrice randId, e.source = "external" := by
    intro e he
    rw [externalLeg] at he
    split at he
    · exact fetchExternalProducts_source _ _ _ _ e he
    · simp at he
  refine ⟨?_, fun pr => rfl, hextmem, ?_⟩
  · rw [searchProducts]
    simp only
    rw [if_neg hnot, hjl]
    rfl
  · intro x hx
    have hx2 := List.mem_of_mem_take hx
    rcases List.mem_append.mp hx2 with hx3 | hx3
    · obtain ⟨pr, _, rfl⟩ := List.mem_map.mp hx3
      exact Or.inl rfl
    · obtain ⟨e, he, rfl⟩ := List.mem_map.mp hx3
      exact Or.inr (hextmem e he)

/-- Witness for C8: searching "milk" with limit 10 and an explicit
`includeExternal=true` over the sample store returns the tagged local hit
followed by the tagged external hit with counts 1 and 1. -/
theorem C8_search_combination_witness :
    (searchProducts sampleDB (some "milk") none (some 10) (some "true")
        sampleExtResponse 7 "r").result =
      .ok { query := "milk",
            totalResults := 2,
            localCount := 1,
            externalCount := 1,
            data := [SearchEntry.loc milk, SearchEntry.ext { id := "external-r", name := "Ext Milk", description := "Product from OpenFoodFacts", price := 7, category := "Farm Products", image := "/images/no-image.png", isOrganic := false, source := "external" }] } := by
  rw [(C8_search_combination sampleDB "milk" none 10 (some "true")
    sampleExtResponse 7 "r" (by decide) (by decide)).1]
  congr 1

end OrganicShop
